import Mathlib

/-!
Verification development for the time-based reveal track application.

The program (`app.js`, plus a URL-only variant of the same file) renders a
list of tiles, each with a scheduled reveal timestamp (`revealAt`, a raw
string parsed by the host's date parser).  Before the reveal instant a tile
is locked and shows a countdown; from the reveal instant on it is revealed.

Embedding conventions:
* An instant is a number of milliseconds (`Int`), the value of
  `Date.prototype.getTime()`.
* The host date parser (`new Date(iso)` followed by the `NaN` check in
  `parseTime`) is abstracted as a function `ParseFn : String → Option Int`:
  `none` models a `NaN` (invalid) date.  `parseTime` in the source is
  exactly this `NaN`-to-`null` wrapper, so the parameter models its result.
* The host locale formatter `formatLocal` (an `Intl.DateTimeFormat` call) is
  abstracted as a function `FmtFn : Int → String`.
* `JSON.parse` / `JSON.stringify` (used by `loadImages` / `saveImages`) are
  abstracted as `String → Option ImgMap` (with `none` modelling a thrown
  parse error, caught in the source) and `ImgMap → String`.
* `Math.floor(x / 1000)` on an integer `x` is `Int.fdiv x 1000` (floor
  division); `s % n` on a non-negative `s` is `Int.emod s n`.
-/

namespace RevealTrack

/-- A tile descriptor from the configuration list (`TILES` in the source):
`id`, `title`, `rarity`, `revealAt` (raw timestamp string), `icon`, and an
optional static `imageUrl` (present only in the URL-only variant's data). -/
structure Tile where
  id : String
  title : String
  rarity : String
  revealAt : String
  icon : String
  imageUrl : Option String := none
deriving Repr, DecidableEq

/-- The host environment's date parser: raw string to epoch milliseconds,
`none` when the host yields an invalid (`NaN`) date. -/
abbrev ParseFn := String → Option Int

/-- The host environment's locale date formatter (`Intl.DateTimeFormat`). -/
abbrev FmtFn := Int → String

/-- `parseTime(iso)` from the source: `new Date(iso)` and `null` on `NaN`.
The host parsing rules themselves are the abstracted parameter. -/
def parseTime (host : ParseFn) (iso : String) : Option Int :=
  host iso

/-- `isRevealed(tile, now)` from the source: false when `revealAt` does not
parse, otherwise `now.getTime() >= t.getTime()`. -/
def isRevealed (host : ParseFn) (tile : Tile) (now : Int) : Bool :=
  match parseTime host tile.revealAt with
  | none => false
  | some t => decide (now ≥ t)

/-- JavaScript `Array.prototype.findIndex`: index of the first element
satisfying `pred`, `-1` when there is none. -/
def findIndexJS {α : Type} (pred : α → Bool) : List α → Int
  | [] => -1
  | x :: xs =>
    if pred x then 0
    else if findIndexJS pred xs < 0 then -1 else findIndexJS pred xs + 1

/-- `nextUnrevealedIndex()` from the source:
`TILES.findIndex(t => !isRevealed(t, now))`.  The tile list and the sampled
`now` are explicit parameters here. -/
def nextUnrevealedIndex (host : ParseFn) (tiles : List Tile) (now : Int) : Int :=
  findIndexJS (fun t => ! isRevealed host t now) tiles

/-- The record returned by `msToParts`. -/
structure Parts where
  days : Int
  hours : Int
  mins : Int
  secs : Int
deriving Repr, DecidableEq

/-- `msToParts(ms)` from the source:
`s = Math.max(0, Math.floor(ms / 1000))`, then successive floor divisions
of the whole-second total.  (On the non-negative `s` the JavaScript `%`
agrees with `Int.emod`, the `%` below.) -/
def msToParts (ms : Int) : Parts :=
  let s : Int := max 0 (Int.fdiv ms 1000)
  { days := Int.fdiv s 86400
    hours := Int.fdiv (s % 86400) 3600
    mins := Int.fdiv (s % 3600) 60
    secs := s % 60 }

/-- `countdownString(ms)` from the source: coarsest useful granularity. -/
def countdownString (ms : Int) : String :=
  let q := msToParts ms
  if q.days > 0 then s!"{q.days}d {q.hours}h {q.mins}m"
  else if q.hours > 0 then s!"{q.hours}h {q.mins}m {q.secs}s"
  else s!"{q.mins}m {q.secs}s"

/-- The whole-second remaining duration the countdown pipeline computes for
a tile: `msToParts` applied to the millisecond difference
`revealAt.getTime() - now.getTime()`, re-totalled in seconds. -/
def remainingSeconds (revealAt now : Int) : Int :=
  let q := msToParts (revealAt - now)
  q.days * 86400 + q.hours * 3600 + q.mins * 60 + q.secs

/-- `rarityLabel(r)` from the source: `r.charAt(0).toUpperCase() + r.slice(1)`. -/
def rarityLabel (r : String) : String :=
  match r.data with
  | [] => ""
  | c :: cs => String.mk (c.toUpper :: cs)

/-- `rarityClass(r)` from the source: the `switch` over rarity names. -/
def rarityClass (r : String) : String :=
  if r = "common" then "r-common"
  else if r = "rare" then "r-rare"
  else if r = "epic" then "r-epic"
  else if r = "legendary" then "r-legendary"
  else "r-common"

/-- `rarityBadgeClass(r)` from the source. -/
def rarityBadgeClass (r : String) : String :=
  "badge rarity-" ++ r

/-- The persisted image mapping (`imagesById`): a finite map from tile id to
data-URL content, modelled as an association list in insertion order (the
enumeration order of a JavaScript object with string keys). -/
abbrev ImgMap := List (String × String)

/-- Property read `imagesById[id]`. -/
def lookupImg : ImgMap → String → Option String
  | [], _ => none
  | (k, v) :: rest, key => if k = key then some v else lookupImg rest key

/-- Property write `imagesById[key] = v`: overwrite in place when the key is
present, append otherwise. -/
def insertImg : ImgMap → String → String → ImgMap
  | [], key, v => [(key, v)]
  | (k, w) :: rest, key, v =>
    if k = key then (key, v) :: rest else (k, w) :: insertImg rest key v

/-- `loadImages()` from the source: read the raw stored string (`none` when
`localStorage` has no entry), return `{}` on a missing or falsy (empty)
string, parse otherwise, and catch any parse error as `{}`. -/
def loadImages (stored : Option String) (parseJson : String → Option ImgMap) : ImgMap :=
  match stored with
  | none => []
  | some raw =>
    if raw = "" then []
    else
      match parseJson raw with
      | none => []
      | some m => m

/-- The per-tile presentation output of a render pass (the data the DOM
subtree built in `renderTrack`'s loop carries): rarity styling tag and badge
label, locked/revealed flag, status badge text, formatted reveal instant (or
the invalid-time marker), the countdown element's text (`none` when the tile
is revealed and has no countdown element), and the content reference shown
in the art area (stored image data-URL, or the icon glyph fallback). -/
structure TileView where
  id : String
  rarityTag : String
  rarityBadge : String
  locked : Bool
  statusLabel : String
  revealText : String
  countdownText : Option String
  content : String
deriving Repr, DecidableEq

/-- The loop body of `renderTrack` for one tile: recompute the reveal state
from a fresh parse of `revealAt` against the sampled `now`, and build the
tile's presentation.  The countdown element is created (empty) only for a
locked tile; `updateCountdowns` fills it afterwards. -/
def buildTileView (host : ParseFn) (fmt : FmtFn) (imgs : ImgMap) (now : Int)
    (tile : Tile) : TileView :=
  let revealAt := parseTime host tile.revealAt
  let revealed : Bool :=
    match revealAt with
    | none => false
    | some t => decide (now ≥ t)
  let hasImage := (lookupImg imgs tile.id).isSome
  { id := tile.id
    rarityTag := rarityClass tile.rarity
    rarityBadge := rarityLabel tile.rarity
    locked := ! revealed
    statusLabel :=
      if revealed then (if hasImage then "IMAGE SET" else "REVEALED") else "LOCKED"
    revealText :=
      match revealAt with
      | none => "Invalid time"
      | some t => fmt t
    countdownText := if revealed then none else some ""
    content :=
      match lookupImg imgs tile.id with
      | some dataUrl => dataUrl
      | none => if tile.icon = "" then "🎁" else tile.icon }

/-- The `updateCountdowns` loop body for one tile: when the tile has a
countdown element, write the invalid-time marker if `revealAt` does not
parse, and the formatted countdown of `revealAt - now` otherwise. -/
def updateTileView (host : ParseFn) (now : Int) (tile : Tile) (view : TileView) :
    TileView :=
  match view.countdownText with
  | none => view
  | some _ =>
    match parseTime host tile.revealAt with
    | none => { view with countdownText := some "Invalid time" }
    | some r => { view with countdownText := some (countdownString (r - now)) }

/-- Whether the `updateCountdowns` loop body for one tile reaches its
re-render trigger `if (ms <= 0) renderTrack()`: it needs a countdown
element and a parsed `revealAt` with `revealAt - now <= 0`. -/
def updateTrigger (host : ParseFn) (now : Int) (tile : Tile) (view : TileView) :
    Bool :=
  view.countdownText.isSome &&
    (match parseTime host tile.revealAt with
     | none => false
     | some r => decide (r - now ≤ 0))

/-- `updateCountdowns` over the whole track: each tile's countdown element
(matched positionally, as the views were just built in tile order) is
rewritten from a fresh `now`. -/
def updateCountdownsViews (host : ParseFn) (now : Int) (tiles : List Tile)
    (views : List TileView) : List TileView :=
  (tiles.zip views).map fun tv => updateTileView host now tv.1 tv.2

/-- Whether any tile of the track reaches the re-render trigger during an
`updateCountdowns` sweep. -/
def updateTriggered (host : ParseFn) (now : Int) (tiles : List Tile)
    (views : List TileView) : Bool :=
  (tiles.zip views).any fun tv => updateTrigger host now tv.1 tv.2

/-- `renderTrack` as a function of its inputs: build every tile's view in
configuration order, then run the immediate `updateCountdowns` sweep at the
same sampled `now`. -/
def renderTrackViews (host : ParseFn) (fmt : FmtFn) (imgs : ImgMap) (now : Int)
    (tiles : List Tile) : List TileView :=
  updateCountdownsViews host now tiles (tiles.map (buildTileView host fmt imgs now))

/-- The fused per-tile presentation after build + immediate countdown update
at one sampled `now`. -/
def tileView (host : ParseFn) (fmt : FmtFn) (imgs : ImgMap) (now : Int)
    (tile : Tile) : TileView :=
  let revealAt := parseTime host tile.revealAt
  let revealed : Bool :=
    match revealAt with
    | none => false
    | some t => decide (now ≥ t)
  let hasImage := (lookupImg imgs tile.id).isSome
  { id := tile.id
    rarityTag := rarityClass tile.rarity
    rarityBadge := rarityLabel tile.rarity
    locked := ! revealed
    statusLabel :=
      if revealed then (if hasImage then "IMAGE SET" else "REVEALED") else "LOCKED"
    revealText :=
      match revealAt with
      | none => "Invalid time"
      | some t => fmt t
    countdownText :=
      if revealed then none
      else
        match revealAt with
        | none => some "Invalid time"
        | some r => some (countdownString (r - now))
    content :=
      match lookupImg imgs tile.id with
      | some dataUrl => dataUrl
      | none => if tile.icon = "" then "🎁" else tile.icon }

/-- A render pass as a transformer of the display surface: the source's
`renderTrack` begins with `trackRow.innerHTML = ""`, discarding whatever was
displayed before, and rebuilds everything from its inputs alone. -/
def renderPass (host : ParseFn) (fmt : FmtFn) (imgs : ImgMap) (now : Int)
    (tiles : List Tile) (_display : List TileView) : List TileView :=
  renderTrackViews host fmt imgs now tiles

/-- The mutable application state outside the DOM: the in-memory persisted
image mapping (`imagesById`), the currently open tile id (`activeTileId`,
`null` when no modal is open), and the raw persisted storage string (the
`localStorage` entry under `STORAGE_KEY`). -/
structure AppState where
  imagesById : ImgMap
  activeTileId : Option String
  storage : Option String
deriving Repr, DecidableEq

/-- `saveImages()` from the source: re-serialize the whole in-memory mapping
into persistent storage. -/
def saveImages (stringify : ImgMap → String) (st : AppState) : AppState :=
  { st with storage := some (stringify st.imagesById) }

/-- The state effect of `openTileModal(tile)`: record the active tile id
(the DOM/modal fields are display-surface output, not state). -/
def openTileModalState (tile : Tile) (st : AppState) : AppState :=
  { st with activeTileId := some tile.id }

/-- The state effect of `closeModal()`: clear the active tile id. -/
def closeModal (st : AppState) : AppState :=
  { st with activeTileId := none }

/-- An uploaded file as the handlers see it: its MIME type (content bytes
are abstracted; the eventual data-URL is a parameter of the completion
step). -/
structure JSFile where
  type : String
deriving Repr, DecidableEq

/-- JavaScript `String.prototype.startsWith` (used for the `image/` MIME
check), as a character-list prefix test. -/
def startsWithJS (s pre : String) : Bool :=
  pre.data.isPrefixOf s.data

/-- The `modalUploadBtn` click handler: bail out when no modal is open, when
the active id matches no tile, or when the tile is not revealed at the
freshly sampled `now`; otherwise open the file picker.  Returns the
(unchanged) state and whether the picker was opened. -/
def modalUploadClick (host : ParseFn) (tiles : List Tile) (now : Int)
    (st : AppState) : AppState × Bool :=
  match st.activeTileId with
  | none => (st, false)
  | some id =>
    match tiles.find? (fun t => t.id = id) with
    | none => (st, false)
    | some tile => if isRevealed host tile now then (st, true) else (st, false)

/-- The guard the `filePicker` change handler evaluates before awaiting the
file read: a file must be selected, a modal must be open (`activeTileId`
non-null), and the MIME type must start with `image/`. -/
def filePickerGuard (st : AppState) (file : Option JSFile) : Bool :=
  match file, st.activeTileId with
  | some f, some _ => startsWithJS f.type "image/"
  | _, _ => false

/-- The property key JavaScript uses for `imagesById[activeTileId]`: the
string coercion of the current `activeTileId`, which is the string
`"null"` when `activeTileId` is `null`. -/
def keyOfActive : Option String → String
  | some s => s
  | none => "null"

/-- The write the `filePicker` change handler performs after the awaited
file read resolves to `dataUrl`: store under the *current* value of
`activeTileId`, then `saveImages()`.  (The subsequent `renderTrack()` and
conditional `openTileModal(tile)` calls read but do not modify
`imagesById`.) -/
def filePickerComplete (stringify : ImgMap → String) (st : AppState)
    (dataUrl : String) : AppState :=
  let key := keyOfActive st.activeTileId
  let imgs := insertImg st.imagesById key dataUrl
  { st with imagesById := imgs, storage := some (stringify imgs) }

/-! ## Concrete fixtures

A small concrete host parser, formatter, serializer and tile list, used to
instantiate the general theorems on closed inputs.  `1767225600000` is the
epoch-millisecond value of `2026-01-01T00:00:00Z`; `1769904000000` is
`2026-02-01T00:00:00Z`. -/

/-- A concrete host date parser knowing two timestamps. -/
def demoParse : ParseFn := fun s =>
  if s = "2026-01-01T00:00:00Z" then some 1767225600000
  else if s = "2026-02-01T00:00:00Z" then some 1769904000000
  else none

/-- A concrete host locale formatter. -/
def demoFmt : FmtFn := fun t => toString t

/-- A tile revealing at `2026-01-01T00:00:00Z`. -/
def demoTile : Tile :=
  { id := "tile-01", title := "Operator Card", rarity := "rare",
    revealAt := "2026-01-01T00:00:00Z", icon := "A" }

/-- A tile revealing a month later. -/
def demoTileLater : Tile :=
  { id := "tile-02", title := "Weapon Wrap", rarity := "epic",
    revealAt := "2026-02-01T00:00:00Z", icon := "B" }

/-- A tile whose `revealAt` the host parser rejects. -/
def demoTileBad : Tile :=
  { id := "tile-03", title := "Spray", rarity := "common",
    revealAt := "not-a-date", icon := "C" }

/-- A concrete serializer for the image mapping. -/
def demoStringify : ImgMap → String := fun _ => "STORED"

/-- A concrete deserializer, inverse to `demoStringify` on `[]`. -/
def demoParseJson : String → Option ImgMap := fun s =>
  if s = "STORED" then some [] else none

/-- A concrete application state with the second demo tile's modal open. -/
def demoState : AppState :=
  { imagesById := [("tile-01", "data:image/png;base64,AAA")],
    activeTileId := some "tile-02", storage := none }

/-! ## Helper lemmas -/

/-- Reassembling the four parts recovers the clamped whole-second total. -/
theorem msToParts_total (ms : Int) :
    (msToParts ms).days * 86400 + (msToParts ms).hours * 3600 +
      (msToParts ms).mins * 60 + (msToParts ms).secs =
      max 0 (Int.fdiv ms 1000) := by
  simp only [msToParts]
  rw [Int.fdiv_eq_ediv _ (by norm_num : (0:Int) ≤ 86400),
      Int.fdiv_eq_ediv _ (by norm_num : (0:Int) ≤ 3600),
      Int.fdiv_eq_ediv _ (by norm_num : (0:Int) ≤ 60)]
  have e3 : max 0 (Int.fdiv ms 1000) % 86400 % 3600 = max 0 (Int.fdiv ms 1000) % 3600 :=
    Int.emod_emod_of_dvd _ (by norm_num)
  have e5 : max 0 (Int.fdiv ms 1000) % 3600 % 60 = max 0 (Int.fdiv ms 1000) % 60 :=
    Int.emod_emod_of_dvd _ (by norm_num)
  omega

/-- All four parts are non-negative, whatever the input. -/
theorem msToParts_nonneg (ms : Int) :
    0 ≤ (msToParts ms).days ∧ 0 ≤ (msToParts ms).hours ∧
      0 ≤ (msToParts ms).mins ∧ 0 ≤ (msToParts ms).secs := by
  simp only [msToParts]
  refine ⟨?_, ?_, ?_, ?_⟩
  · exact Int.fdiv_nonneg (le_max_left _ _) (by norm_num)
  · exact Int.fdiv_nonneg (Int.emod_nonneg _ (by norm_num)) (by norm_num)
  · exact Int.fdiv_nonneg (Int.emod_nonneg _ (by norm_num)) (by norm_num)
  · exact Int.emod_nonneg _ (by norm_num)

/-- The whole-second remaining value is the clamped floor of the millisecond
difference. -/
theorem remainingSeconds_eq (revealAt now : Int) :
    remainingSeconds revealAt now = max 0 (Int.fdiv (revealAt - now) 1000) := by
  simp only [remainingSeconds]
  exact msToParts_total (revealAt - now)

/-! ## Claims about the schedule evaluator -/

/-- C1: for every tile descriptor and every instant `now`,
`isRevealed(tile, now)` is true iff `parseInstant(tile.revealAt)` is
non-`None` and `now` is at or past the parsed instant; and the boundary is
closed: at the exact instant `now = revealAt` the tile is already
revealed. -/
theorem isRevealed_iff_parsed_closed_boundary (host : ParseFn) (tile : Tile)
    (now : Int) :
    (isRevealed host tile now = true ↔
      ∃ t, parseTime host tile.revealAt = some t ∧ t ≤ now) ∧
    (∀ t, parseTime host tile.revealAt = some t → isRevealed host tile t = true) := by
  constructor
  · cases h : parseTime host tile.revealAt with
    | none => simp [isRevealed, h]
    | some t => simp [isRevealed, h, ge_iff_le]
  · intro t ht
    simp [isRevealed, ht]

/-- Closed instance of `isRevealed_iff_parsed_closed_boundary`: at the exact
reveal instant the demo tile is revealed. -/
theorem isRevealed_iff_parsed_closed_boundary_witness :
    isRevealed demoParse demoTile 1767225600000 = true :=
  (isRevealed_iff_parsed_closed_boundary demoParse demoTile 0).2
    1767225600000 (by decide)

/-- C2: reveal is monotonic and one-directional: whenever `now1 ≤ now2`, a
tile revealed at `now1` is still revealed at `now2`; a tile never
transitions back from revealed to locked. -/
theorem isRevealed_monotone (host : ParseFn) (tile : Tile) (now1 now2 : Int)
    (h : now1 ≤ now2) (hrev : isRevealed host tile now1 = true) :
    isRevealed host tile now2 = true := by
  unfold isRevealed at hrev ⊢
  cases hp : parseTime host tile.revealAt with
  | none => rw [hp] at hrev; simp at hrev
  | some t =>
    rw [hp] at hrev
    simp only [decide_eq_true_eq, ge_iff_le] at hrev ⊢
    omega

/-- Closed instance of `isRevealed_monotone`: the demo tile, revealed at its
reveal instant, is still revealed one hour later. -/
theorem isRevealed_monotone_witness :
    isRevealed demoParse demoTile 1767229200000 = true :=
  isRevealed_monotone demoParse demoTile 1767225600000 1767229200000
    (by decide) (by decide)

/-- C3 (counterexample): 999 milliseconds before the reveal instant the
whole-second remaining value is already `0`, while `now < revealAt` — so
"remaining equals 0 exactly when `now >= revealAt`" fails as stated. -/
theorem remainingSeconds_zero_before_reveal :
    remainingSeconds 1000 1 = 0 ∧ ¬ ((1 : Int) ≥ 1000) := by decide

/-- C3 (amended): the whole-second remaining value
`max(0, floor((revealAt - now)/1000))` computed by the countdown pipeline is
always non-negative, and it equals `0` exactly when less than one full
second remains, i.e. when `revealAt - now < 1000` — in particular whenever
`now ≥ revealAt`. -/
theorem remainingSeconds_nonneg_zero_iff (revealAt now : Int) :
    0 ≤ remainingSeconds revealAt now ∧
      (remainingSeconds revealAt now = 0 ↔ revealAt - now < 1000) := by
  rw [remainingSeconds_eq]
  constructor
  · exact le_max_left _ _
  · rw [Int.fdiv_eq_ediv _ (by norm_num : (0:Int) ≤ 1000)]
    omega

/-- Closed instance of `remainingSeconds_nonneg_zero_iff`: half a second
after the demo reveal instant, the remaining value is non-negative and its
zero test matches the sub-second criterion. -/
theorem remainingSeconds_nonneg_zero_iff_witness :
    0 ≤ remainingSeconds 1767225600000 1767225600500 ∧
      (remainingSeconds 1767225600000 1767225600500 = 0 ↔
        (1767225600000 : Int) - 1767225600500 < 1000) :=
  remainingSeconds_nonneg_zero_iff 1767225600000 1767225600500

/-- C4: `countdownString` picks the coarsest useful granularity, with all
components non-negative and obtained by floor division of the clamped total
of whole seconds, never negative even for zero or negative input; in
particular 90061 whole seconds format as `"1d 1h 1m"`, 3661 as
`"1h 1m 1s"`, 61 as `"1m 1s"`, and 0 as `"0m 0s"`. -/
theorem countdownString_granularity_spec :
    (∀ ms : Int,
      (0 ≤ (msToParts ms).days ∧ 0 ≤ (msToParts ms).hours ∧
        0 ≤ (msToParts ms).mins ∧ 0 ≤ (msToParts ms).secs) ∧
      (msToParts ms).days * 86400 + (msToParts ms).hours * 3600 +
        (msToParts ms).mins * 60 + (msToParts ms).secs =
        max 0 (Int.fdiv ms 1000)) ∧
    countdownString (90061 * 1000) = "1d 1h 1m" ∧
    countdownString (3661 * 1000) = "1h 1m 1s" ∧
    countdownString (61 * 1000) = "1m 1s" ∧
    countdownString 0 = "0m 0s" ∧
    countdownString (-5000) = "0m 0s" := by
  refine ⟨fun ms => ⟨msToParts_nonneg ms, msToParts_total ms⟩, ?_, ?_, ?_, ?_, ?_⟩
  · decide
  · decide
  · decide
  · decide
  · decide

/-- `findIndexJS` agrees with `List.findIdx`, with the not-found sentinel
translated from `length` to `-1`. -/
theorem findIndexJS_eq_findIdx {α : Type} (pred : α → Bool) (l : List α) :
    findIndexJS pred l =
      if l.findIdx pred = l.length then -1 else (l.findIdx pred : Int) := by
  induction l with
  | nil => simp [findIndexJS]
  | cons x xs ih =>
    cases hx : pred x with
    | true => simp [findIndexJS, hx, List.findIdx_cons]
    | false =>
      simp only [findIndexJS, hx, Bool.false_eq_true, if_false, ih,
        List.findIdx_cons, Bool.cond_false, List.length_cons]
      by_cases h : xs.findIdx pred = xs.length
      · simp [h]
      · have hlt : xs.findIdx pred < xs.length :=
          Nat.lt_of_le_of_ne (List.findIdx_le_length pred) h
        have h1 : ¬ ((xs.findIdx pred : Int) < 0) := by omega
        have h2 : ¬ (xs.findIdx pred + 1 = xs.length + 1) := by omega
        rw [if_neg h, if_neg h1, if_neg h2]
        omega

/-- C5: `findNextLocked` (`nextUnrevealedIndex`) returns `-1` exactly when
every descriptor is revealed, and returns `i` exactly when the descriptor at
index `i` of the externally supplied list order is the first one that is not
revealed (all earlier ones being revealed) — no reordering by reveal
time. -/
theorem nextUnrevealedIndex_first_locked (host : ParseFn) (tiles : List Tile)
    (now : Int) :
    (nextUnrevealedIndex host tiles now = -1 ↔
      ∀ t ∈ tiles, isRevealed host t now = true) ∧
    ∀ i : Nat, (nextUnrevealedIndex host tiles now = (i : Int) ↔
      (∃ t, tiles[i]? = some t ∧ isRevealed host t now = false) ∧
      ∀ j : Nat, j < i →
        ∃ t, tiles[j]? = some t ∧ isRevealed host t now = true) := by
  unfold nextUnrevealedIndex
  rw [findIndexJS_eq_findIdx]
  set pred := fun t => ! isRevealed host t now with hpred
  constructor
  · by_cases h : tiles.findIdx pred = tiles.length
    · rw [if_pos h]
      rw [List.findIdx_eq_length] at h
      constructor
      · intro _ t ht
        have := h t ht
        simpa [hpred] using this
      · intro _; rfl
    · rw [if_neg h]
      have hlt : tiles.findIdx pred < tiles.length :=
        Nat.lt_of_le_of_ne (List.findIdx_le_length pred) h
      constructor
      · intro habs
        exfalso
        omega
      · intro hall
        exfalso
        obtain ⟨t, ht, hpt⟩ := List.findIdx_lt_length.mp hlt
        have := hall t ht
        simp [hpred, this] at hpt
  · intro i
    by_cases h : tiles.findIdx pred = tiles.length
    · rw [if_pos h]
      constructor
      · intro habs
        exfalso
        omega
      · rintro ⟨⟨t, hti, hrev⟩, -⟩
        exfalso
        rw [List.findIdx_eq_length] at h
        have hmem : t ∈ tiles := List.getElem?_mem hti
        have := h t hmem
        simp [hpred, hrev] at this
    · rw [if_neg h]
      have hlt : tiles.findIdx pred < tiles.length :=
        Nat.lt_of_le_of_ne (List.findIdx_le_length pred) h
      rw [Int.ofNat_inj]  -- hmm: (findIdx : Int) = (i : Int) ↔ findIdx = i
      constructor
      · intro hfi
        subst hfi
        refine ⟨⟨tiles.get ⟨tiles.findIdx pred, hlt⟩, ?_, ?_⟩, ?_⟩
        · simp
        · have := @List.findIdx_getElem _ pred tiles hlt
          simp only [hpred] at this
          simpa using this
        · intro j hj
          have hjlt : j < tiles.length := Nat.lt_trans hj hlt
          refine ⟨tiles.get ⟨j, hjlt⟩, by simp, ?_⟩
          have := @List.not_of_lt_findIdx _ pred tiles j hj
          simpa [hpred] using this
      · rintro ⟨⟨t, hti, hrev⟩, hbefore⟩
        have hilt : i < tiles.length := by
          rcases List.getElem?_eq_some_iff.mp hti with ⟨hh, -⟩
          exact hh
        rw [List.findIdx_eq hilt]
        constructor
        · rcases List.getElem?_eq_some_iff.mp hti with ⟨hh, hEq⟩
          simp [hpred, hEq, hrev]
        · intro j hji
          obtain ⟨u, hu, hurev⟩ := hbefore j hji
          rcases List.getElem?_eq_some_iff.mp hu with ⟨hh, hEq⟩
          simp [hpred, hEq, hurev]

/-- Closed instance of `nextUnrevealedIndex_first_locked`: with the first
demo tile revealed and the later one still locked, the index returned is
`1`. -/
theorem nextUnrevealedIndex_first_locked_witness :
    nextUnrevealedIndex demoParse [demoTile, demoTileLater] 1767225600000 = (1 : Int) := by
  apply ((nextUnrevealedIndex_first_locked demoParse [demoTile, demoTileLater]
    1767225600000).2 1).mpr
  refine ⟨⟨demoTileLater, rfl, by decide⟩, ?_⟩
  intro j hj
  have hj0 : j = 0 := by omega
  subst hj0
  exact ⟨demoTile, rfl, by decide⟩

/-- Running the `updateCountdowns` body on a freshly built tile view at the
same sampled `now` yields the fused per-tile presentation. -/
theorem updateTileView_buildTileView (host : ParseFn) (fmt : FmtFn)
    (imgs : ImgMap) (now : Int) (tile : Tile) :
    updateTileView host now tile (buildTileView host fmt imgs now tile) =
      tileView host fmt imgs now tile := by
  cases h : parseTime host tile.revealAt with
  | none => simp [updateTileView, buildTileView, tileView, h]
  | some t =>
    by_cases hrev : now ≥ t
    · simp [updateTileView, buildTileView, tileView, h, hrev]
    · simp [updateTileView, buildTileView, tileView, h, hrev]

/-- The whole render pass (build, then the immediate countdown sweep at the
same `now`) is the per-tile map of the fused presentation: every tile's
output depends only on that tile's own descriptor and the shared inputs. -/
theorem renderTrackViews_eq_map (host : ParseFn) (fmt : FmtFn) (imgs : ImgMap)
    (now : Int) (tiles : List Tile) :
    renderTrackViews host fmt imgs now tiles =
      tiles.map (tileView host fmt imgs now) := by
  induction tiles with
  | nil => rfl
  | cons t ts ih =>
    simp only [renderTrackViews, updateCountdownsViews, List.map_cons,
      List.zip_cons_cons] at ih ⊢
    rw [updateTileView_buildTileView]
    exact congrArg _ ih

/-- During the countdown sweep that immediately follows a build at the same
sampled `now`, no tile reaches the `ms <= 0` re-render trigger: a tile with
a countdown element is locked, so its remaining milliseconds are positive,
and an unparseable tile never reaches the trigger. -/
theorem updateTriggered_build_false (host : ParseFn) (fmt : FmtFn)
    (imgs : ImgMap) (now : Int) (tiles : List Tile) :
    updateTriggered host now tiles (tiles.map (buildTileView host fmt imgs now)) =
      false := by
  induction tiles with
  | nil => rfl
  | cons t ts ih =>
    simp only [updateTriggered, List.map_cons, List.zip_cons_cons,
      List.any_cons] at ih ⊢
    rw [Bool.or_eq_false_iff]
    refine ⟨?_, ih⟩
    cases h : parseTime host t.revealAt with
    | none => simp [updateTrigger, buildTileView, h]
    | some r =>
      by_cases hrev : now ≥ r
      · simp [updateTrigger, buildTileView, h, hrev]
      · have : ¬ (r - now ≤ 0) := by omega
        simp [updateTrigger, buildTileView, h, hrev, this]

/-- C9: the render pass is idempotent and deterministic in its inputs:
re-running it on its own output (same sampled `now`, same tiles, same
stored-image mapping) produces the same presentation, its output does not
depend on what was displayed before, and the immediate countdown sweep at
the same `now` never re-triggers a further render pass. -/
theorem renderPass_idempotent_deterministic (host : ParseFn) (fmt : FmtFn)
    (imgs : ImgMap) (now : Int) (tiles : List Tile) :
    (∀ d : List TileView,
      renderPass host fmt imgs now tiles (renderPass host fmt imgs now tiles d) =
        renderPass host fmt imgs now tiles d) ∧
    (∀ d1 d2 : List TileView,
      renderPass host fmt imgs now tiles d1 = renderPass host fmt imgs now tiles d2) ∧
    updateTriggered host now tiles (tiles.map (buildTileView host fmt imgs now)) =
      false :=
  ⟨fun _ => rfl, fun _ _ => rfl, updateTriggered_build_false host fmt imgs now tiles⟩

/-- C6: a tile whose `revealAt` string fails to parse is permanently locked
and non-fatal: `parseTime` returns `none` (modelled totally, no exception),
`isRevealed` is false at every instant, the rendered output carries the
explicit `"Invalid time"` marker in both the reveal-instant line and the
countdown element, and — since the render pass is a per-tile map — the
failure is isolated to that tile and never blocks rendering of the
others. -/
theorem invalid_revealAt_permanently_locked (host : ParseFn) (fmt : FmtFn)
    (imgs : ImgMap) (now : Int) (tile : Tile)
    (hbad : parseTime host tile.revealAt = none) :
    (∀ n : Int, isRevealed host tile n = false) ∧
    (tileView host fmt imgs now tile).locked = true ∧
    (tileView host fmt imgs now tile).statusLabel = "LOCKED" ∧
    (tileView host fmt imgs now tile).revealText = "Invalid time" ∧
    (tileView host fmt imgs now tile).countdownText = some "Invalid time" ∧
    ∀ tiles : List Tile,
      renderTrackViews host fmt imgs now tiles =
        tiles.map (tileView host fmt imgs now) := by
  refine ⟨?_, ?_, ?_, ?_, ?_, fun tiles => renderTrackViews_eq_map host fmt imgs now tiles⟩
  · intro n; simp [isRevealed, hbad]
  · simp [tileView, hbad]
  · simp [tileView, hbad]
  · simp [tileView, hbad]
  · simp [tileView, hbad]

/-- Closed instance of `invalid_revealAt_permanently_locked`: the demo tile
with `revealAt = "not-a-date"` is locked even in the far future and shows
the invalid-time marker. -/
theorem invalid_revealAt_permanently_locked_witness :
    isRevealed demoParse demoTileBad 99999999999999 = false ∧
    (tileView demoParse demoFmt [] 0 demoTileBad).revealText = "Invalid time" :=
  ⟨(invalid_revealAt_permanently_locked demoParse demoFmt [] 0 demoTileBad
      (by decide)).1 99999999999999,
   (invalid_revealAt_permanently_locked demoParse demoFmt [] 0 demoTileBad
      (by decide)).2.2.2.1⟩

/-- C7: `loadAll` (`loadImages`) is total — it returns the previously
persisted mapping when the stored string deserializes back to it, and an
empty mapping (never an exception) when no stored data exists or the stored
data is corrupt (deserialization fails). -/
theorem loadImages_roundtrip_or_empty (parseJson : String → Option ImgMap)
    (stringify : ImgMap → String) :
    loadImages none parseJson = [] ∧
    (∀ raw : String, parseJson raw = none → loadImages (some raw) parseJson = []) ∧
    (∀ m : ImgMap, stringify m ≠ "" → parseJson (stringify m) = some m →
      loadImages (some (stringify m)) parseJson = m) := by
  refine ⟨rfl, ?_, ?_⟩
  · intro raw h
    by_cases he : raw = ""
    · simp [loadImages, he]
    · simp [loadImages, he, h]
  · intro m hne hinv
    simp [loadImages, hne, hinv]

/-- Closed instance of `loadImages_roundtrip_or_empty`: missing storage,
corrupt storage, and a round-tripped store all behave as specified. -/
theorem loadImages_roundtrip_or_empty_witness :
    loadImages none demoParseJson = [] ∧
    loadImages (some "corrupt###") demoParseJson = [] ∧
    loadImages (some (demoStringify [])) demoParseJson = [] :=
  ⟨(loadImages_roundtrip_or_empty demoParseJson demoStringify).1,
   (loadImages_roundtrip_or_empty demoParseJson demoStringify).2.1
      "corrupt###" (by decide),
   (loadImages_roundtrip_or_empty demoParseJson demoStringify).2.2
      [] (by decide) (by decide)⟩

/-- C8: an upload attempt (the `modalUploadBtn` click) on a tile that is
locked at the instant of the attempt is silently ignored: the state —
including the persisted image mapping — is returned unchanged, the file
picker is not opened, and no error is raised (the handler is total). -/
theorem locked_upload_attempt_ignored (host : ParseFn) (tiles : List Tile)
    (now : Int) (st : AppState) (id : String) (tile : Tile)
    (hactive : st.activeTileId = some id)
    (hfind : tiles.find? (fun t => t.id = id) = some tile)
    (hlocked : isRevealed host tile now = false) :
    modalUploadClick host tiles now st = (st, false) := by
  simp [modalUploadClick, hactive, hfind, hlocked]

/-- Closed instance of `locked_upload_attempt_ignored`: clicking upload with
the still-locked later demo tile's modal open changes nothing. -/
theorem locked_upload_attempt_ignored_witness :
    modalUploadClick demoParse [demoTileLater] 0 demoState = (demoState, false) :=
  locked_upload_attempt_ignored demoParse [demoTileLater] 0 demoState
    "tile-02" demoTileLater rfl (by decide) (by decide)

/-- Looking up the key just written by `insertImg` yields the new value. -/
theorem lookupImg_insertImg_self (m : ImgMap) (k v : String) :
    lookupImg (insertImg m k v) k = some v := by
  induction m with
  | nil => simp [insertImg, lookupImg]
  | cons kv rest ih =>
    obtain ⟨k2, w⟩ := kv
    by_cases h : k2 = k
    · subst h
      simp [insertImg, lookupImg]
    · simp [insertImg, lookupImg, h, ih]

/-- `insertImg` leaves every other key's binding unchanged. -/
theorem lookupImg_insertImg_ne (m : ImgMap) (k v k2 : String) (h : k2 ≠ k) :
    lookupImg (insertImg m k v) k2 = lookupImg m k2 := by
  induction m with
  | nil =>
    have hne : ¬ (k = k2) := fun hh => h (Eq.symm hh)
    simp [insertImg, lookupImg, hne]
  | cons kv rest ih =>
    obtain ⟨k3, w⟩ := kv
    by_cases h3 : k3 = k
    · subst h3
      have hne : ¬ (k3 = k2) := fun hh => h (hh ▸ rfl)
      simp [insertImg, lookupImg, hne]
    · by_cases h32 : k3 = k2
      · subst h32
        simp [insertImg, lookupImg, h3]
      · simp [insertImg, lookupImg, h3, h32, ih]

/-- C10: the asynchronous upload-completion path keys its write by the value
of `activeTileId` at read-completion time, not by the tile id captured when
the file was selected: the guard (which checks `activeTileId`) runs before
the awaited read, and if `closeModal` (which nulls `activeTileId`) runs
while the read is pending, the completed upload is written into the
persisted mapping under the string key `"null"`, leaving every tile id's
binding unchanged. -/
theorem pending_upload_write_keyed_by_null (stringify : ImgMap → String)
    (st : AppState) (id : String) (f : JSFile) (dataUrl : String)
    (hactive : st.activeTileId = some id)
    (htype : startsWithJS f.type "image/" = true) :
    filePickerGuard st (some f) = true ∧
    (filePickerComplete stringify (closeModal st) dataUrl).activeTileId = none ∧
    lookupImg (filePickerComplete stringify (closeModal st) dataUrl).imagesById
      "null" = some dataUrl ∧
    ∀ k : String, k ≠ "null" →
      lookupImg (filePickerComplete stringify (closeModal st) dataUrl).imagesById
        k = lookupImg st.imagesById k := by
  refine ⟨?_, rfl, ?_, ?_⟩
  · simp only [filePickerGuard, hactive]
    exact htype
  · exact lookupImg_insertImg_self st.imagesById "null" dataUrl
  · intro k hk
    exact lookupImg_insertImg_ne st.imagesById "null" dataUrl k hk

/-- Closed instance of `pending_upload_write_keyed_by_null`: with the second
demo tile's modal open, a valid image pick whose read completes after
`closeModal` lands under the key `"null"`, and the existing tile binding is
untouched. -/
theorem pending_upload_write_keyed_by_null_witness :
    filePickerGuard demoState (some { type := "image/png" }) = true ∧
    lookupImg (filePickerComplete demoStringify (closeModal demoState)
      "data:image/png;base64,ZZZ").imagesById "null" =
      some "data:image/png;base64,ZZZ" ∧
    lookupImg (filePickerComplete demoStringify (closeModal demoState)
      "data:image/png;base64,ZZZ").imagesById "tile-01" =
      lookupImg demoState.imagesById "tile-01" :=
  ⟨(pending_upload_write_keyed_by_null demoStringify demoState "tile-02"
      { type := "image/png" } "data:image/png;base64,ZZZ" rfl (by decide)).1,
   (pending_upload_write_keyed_by_null demoStringify demoState "tile-02"
      { type := "image/png" } "data:image/png;base64,ZZZ" rfl (by decide)).2.2.1,
   (pending_upload_write_keyed_by_null demoStringify demoState "tile-02"
      { type := "image/png" } "data:image/png;base64,ZZZ" rfl (by decide)).2.2.2
      "tile-01" (by decide)⟩

end RevealTrack
